import Mathlib

/-!
Shallow embedding of the UniEventry event-management backend.

The relational state (MySQL tables created in the migration scripts) is
modelled as lists of records; each Express route handler that the claims
concern is modelled as a Lean function from a request and a database state
to a result and an updated database state.  SQL queries are translated
clause by clause: WHERE becomes List.filter / List.find? / List.any,
COUNT becomes List.length, MAX becomes a recursive maximum returning
none on the empty multiset (SQL NULL), LEFT JOIN with GROUP BY becomes an
explicit per-row join-list construction, and ORDER BY becomes a sort.
JavaScript value coercions that matter are made explicit: a NULL capacity
compared with a count coerces to 0, and the expression
(maxPosition.max_pos || 0) + 1 becomes Option.getD 0 followed by + 1.
-/

namespace UniEventry

/-- Status column of the registrations table (migration runMigrations.js):
ENUM of registered, waitlisted, cancelled. -/
inductive RegStatus
  | registered
  | waitlisted
  | cancelled
deriving DecidableEq

/-- A row of the events table.  The repository carries two divergent event
schemas; this record holds the union of the columns the modelled routes
read: max_participants (nullable INT, read by the registration route) and
qr_secret (nullable VARCHAR, read by the QR check-in route). -/
structure Event where
  id : Nat
  college_id : Nat
  title : String
  max_participants : Option Int
  qr_secret : Option String
deriving DecidableEq

/-- A row of the registrations table.  The UNIQUE KEY unique_registration
(event_id, student_id) of the migration is enforced by the insert model. -/
structure Registration where
  college_id : Nat
  event_id : Nat
  student_id : Nat
  status : RegStatus
  waitlist_position : Option Int
deriving DecidableEq

/-- A row of the attendance table; checked_in_at is the TIMESTAMP column. -/
structure Attendance where
  college_id : Nat
  event_id : Nat
  student_id : Nat
  checked_in_at : Nat
deriving DecidableEq

/-- A row of the students table (columns the modelled routes read). -/
structure Student where
  id : Nat
  college_id : Nat
  email : String
  password_hash : String
  first_name : String
  last_name : String
  is_active : Bool
deriving DecidableEq

/-- A row of the admins table (columns the modelled routes read). -/
structure Admin where
  id : Nat
  college_id : Nat
  email : String
  password_hash : String
  is_active : Bool
deriving DecidableEq

/-- A row of the feedback table, as inserted by the feedback route. -/
structure Feedback where
  college_id : Nat
  event_id : Nat
  student_id : Nat
  rating : Int
  comments : Option String
  suggestions : Option String
  anonymous : Bool
deriving DecidableEq

/-- A row of the notes table, as inserted by the notes route. -/
structure Note where
  event_id : Nat
  student_id : Nat
  content : String
deriving DecidableEq

/-- The database state: one list per table the claims touch. -/
structure DB where
  events : List Event
  registrations : List Registration
  attendance : List Attendance
  students : List Student
  admins : List Admin
  feedback : List Feedback
  notes : List Note
deriving DecidableEq

/-- SQL aggregate MAX over a column: NULL (none) on the empty multiset,
otherwise the maximum value. -/
def sqlMax : List Int → Option Int
  | [] => none
  | x :: xs =>
    match sqlMax xs with
    | none => some x
    | some m => some (max x m)

/-- SELECT max_participants FROM events WHERE id = ? AND college_id = ?
(registration route, line 19). -/
def findEvent (db : DB) (event_id college_id : Nat) : Option Event :=
  db.events.find? (fun e => e.id == event_id && e.college_id == college_id)

/-- SELECT COUNT(*) FROM registrations WHERE event_id = ? AND
status = "registered" (registration route, line 28).  The query carries no
college filter, exactly as in the source. -/
def registeredCount (db : DB) (event_id : Nat) : Nat :=
  (db.registrations.filter
    (fun r => r.event_id == event_id && r.status == RegStatus.registered)).length

/-- The rows with status waitlisted for one event, in table order. -/
def waitlistRows (db : DB) (event_id : Nat) : List Registration :=
  db.registrations.filter
    (fun r => r.event_id == event_id && r.status == RegStatus.waitlisted)

/-- The non-NULL waitlist_position values among the waitlisted rows of one
event (SQL MAX skips NULLs, so only the some values feed the aggregate). -/
def waitlistPositions (db : DB) (event_id : Nat) : List Int :=
  (waitlistRows db event_id).filterMap (fun r => r.waitlist_position)

/-- SELECT MAX(waitlist_position) FROM registrations WHERE event_id = ?
AND status = "waitlisted" (registration route, line 37). -/
def maxWaitlistPos (db : DB) (event_id : Nat) : Option Int :=
  sqlMax (waitlistPositions db event_id)

/-- Whether a row with the given (event_id, student_id) exists; this is the
condition under which the UNIQUE KEY unique_registration (event_id,
student_id) rejects the INSERT of the registration route. -/
def hasRegistration (db : DB) (event_id student_id : Nat) : Bool :=
  db.registrations.any
    (fun r => r.event_id == event_id && r.student_id == student_id)

/-- Outcome of the registration route POST / handler: 404 Event not found,
500 Failed to register (the catch block, reached when the INSERT violates
the unique key), or the JSON success response carrying the computed status
and waitlist_position. -/
inductive RegistrationResult
  | notFound
  | failed
  | ok (status : RegStatus) (waitlist_position : Option Int)
deriving DecidableEq

/-- HTTP status code of each registration outcome as the handler sends it. -/
def registrationHttpStatus : RegistrationResult → Nat
  | RegistrationResult.notFound => 404
  | RegistrationResult.failed => 500
  | RegistrationResult.ok _ _ => 200

/-- Lines 26 to 42 of the registration route: the JS comparison
registeredCount[0].count >= capacity coerces a NULL capacity to 0, and the
waitlist position is (maxPosition[0].max_pos || 0) + 1, where the SQL MAX
is NULL when no waitlisted row exists. -/
def registrationDecision (db : DB) (ev : Event) (event_id : Nat) :
    RegStatus × Option Int :=
  if (registeredCount db event_id : Int) ≥ ev.max_participants.getD 0 then
    (RegStatus.waitlisted, some ((maxWaitlistPos db event_id).getD 0 + 1))
  else
    (RegStatus.registered, none)

/-- The registration route POST / handler (src/routes/registration.js,
lines 14 to 53): look up the event in the caller's college, compute the
admission decision, then INSERT; a duplicate (event_id, student_id) makes
the INSERT throw, which the catch block turns into the 500 response with
no row created. -/
def postRegistration (db : DB) (college_id student_id event_id : Nat) :
    RegistrationResult × DB :=
  match findEvent db event_id college_id with
  | none => (RegistrationResult.notFound, db)
  | some ev =>
    let dec := registrationDecision db ev event_id
    if hasRegistration db event_id student_id then
      (RegistrationResult.failed, db)
    else
      (RegistrationResult.ok dec.1 dec.2,
       { db with registrations :=
           db.registrations ++
             [⟨college_id, event_id, student_id, dec.1, dec.2⟩] })

/-- Sequential (non-concurrent) admissions: each request runs to completion
on the state left by the previous one. -/
def postRegistrationSeq (college_id event_id : Nat) : DB → List Nat → DB
  | db, [] => db
  | db, s :: ss =>
      postRegistrationSeq college_id event_id
        (postRegistration db college_id s event_id).2 ss

/-- The waitlisted rows a run of sequential waitlisting admissions appends:
the students in arrival order, with positions start+1, start+2, and so on. -/
def expectedWaitlistRows (college_id event_id : Nat) :
    Int → List Nat → List Registration
  | _, [] => []
  | start, s :: ss =>
      ⟨college_id, event_id, s, RegStatus.waitlisted, some (start + 1)⟩ ::
        expectedWaitlistRows college_id event_id (start + 1) ss

/-- The parsed qr_data payload the student presents at QR check-in. -/
structure QRPayload where
  event_id : Nat
  secret : String
  college_id : Nat
deriving DecidableEq

/-- Outcome of the attendance route POST /qr-checkin handler. -/
inductive CheckinResult
  | invalidQR
  | alreadyCheckedIn
  | checkedIn
deriving DecidableEq

/-- HTTP status and body of each QR check-in outcome as the handler sends
it (400 Invalid QR code, 400 Already checked in, 200 success). -/
def checkinResponse : CheckinResult → Nat × String
  | CheckinResult.invalidQR => (400, "Invalid QR code")
  | CheckinResult.alreadyCheckedIn => (400, "Already checked in")
  | CheckinResult.checkedIn => (200, "Checked in successfully")

/-- SELECT id FROM events WHERE id = ? AND qr_secret = ? AND college_id = ?
(attendance route, line 50).  SQL equality against a NULL qr_secret never
matches, hence the comparison with some. -/
def qrMatchingEvent (db : DB) (qr : QRPayload) : Option Event :=
  db.events.find?
    (fun e => e.id == qr.event_id && e.qr_secret == some qr.secret &&
      e.college_id == qr.college_id)

/-- The attendance route POST /qr-checkin handler (lines 45 to 72): verify
the payload against the stored event, reject when an attendance row already
exists for (event_id, student_id), otherwise INSERT the attendance fact. -/
def qrCheckin (db : DB) (user_college user_id : Nat) (qr : QRPayload)
    (now : Nat) : CheckinResult × DB :=
  match qrMatchingEvent db qr with
  | none => (CheckinResult.invalidQR, db)
  | some _ =>
    if db.attendance.any
        (fun a => a.event_id == qr.event_id && a.student_id == user_id) then
      (CheckinResult.alreadyCheckedIn, db)
    else
      (CheckinResult.checkedIn,
       { db with attendance :=
           db.attendance ++ [⟨user_college, qr.event_id, user_id, now⟩] })

/-- The decoded credential payload the token carries: id, college_id, role. -/
structure TokenUser where
  id : Nat
  college_id : Nat
  role : String
deriving DecidableEq

/-- Outcome of the requireSameCollege middleware: a 403 response with its
message, or the request proceeding with the (possibly re-derived) user. -/
inductive GuardResult
  | forbidden (msg : String)
  | proceed (user : TokenUser)
deriving DecidableEq

/-- The requireSameCollege middleware (src/middleware/auth.js, lines 38 to
77): for admin and super_admin roles the admins row is looked up by id, for
the student role the students row; an absent or inactive row yields 403,
otherwise college_id is overwritten from the live row.  A role matching
neither branch proceeds unchanged, as in the source. -/
def requireSameCollege (db : DB) (u : TokenUser) : GuardResult :=
  if u.role = "admin" ∨ u.role = "super_admin" then
    match db.admins.find? (fun a => a.id == u.id) with
    | none => GuardResult.forbidden "Admin account not found or inactive"
    | some a =>
      if a.is_active then GuardResult.proceed { u with college_id := a.college_id }
      else GuardResult.forbidden "Admin account not found or inactive"
  else if u.role = "student" then
    match db.students.find? (fun s => s.id == u.id) with
    | none => GuardResult.forbidden "Student account not found or inactive"
    | some s =>
      if s.is_active then GuardResult.proceed { u with college_id := s.college_id }
      else GuardResult.forbidden "Student account not found or inactive"
  else
    GuardResult.proceed u

/-- The live account row the guard consults for a given token role:
(is_active, college_id) of the admins row for admin and super_admin roles,
of the students row for the student role. -/
def accountRecord (db : DB) (u : TokenUser) : Option (Bool × Nat) :=
  if u.role = "admin" ∨ u.role = "super_admin" then
    (db.admins.find? (fun a => a.id == u.id)).map
      (fun a => (a.is_active, a.college_id))
  else if u.role = "student" then
    (db.students.find? (fun s => s.id == u.id)).map
      (fun s => (s.is_active, s.college_id))
  else none

/-- Outcome of the feedback route POST / handler. -/
inductive FeedbackResult
  | notAttended
  | alreadySubmitted
  | created
deriving DecidableEq

/-- The feedback route POST / handler (src feedback route, lines 20 to 62):
require a prior attendance row for (event_id, student_id, college_id),
reject with 400 when a feedback row already exists for (event_id,
student_id), otherwise INSERT the new feedback row. -/
def postFeedback (db : DB) (user_college user_id event_id : Nat)
    (rating : Int) (comments suggestions : Option String)
    (anonymous : Bool) : FeedbackResult × DB :=
  if !(db.attendance.any
      (fun a => a.event_id == event_id && a.student_id == user_id &&
        a.college_id == user_college)) then
    (FeedbackResult.notAttended, db)
  else if db.feedback.any
      (fun f => f.event_id == event_id && f.student_id == user_id) then
    (FeedbackResult.alreadySubmitted, db)
  else
    (FeedbackResult.created,
     { db with feedback :=
         db.feedback ++
           [⟨user_college, event_id, user_id, rating, comments, suggestions,
             anonymous⟩] })

/-- Outcome of the notes route POST / handler. -/
inductive NoteResult
  | notRegistered
  | updated
  | created
deriving DecidableEq

/-- The notes route POST / handler (src notes route, lines 17 to 59):
require a registration row for (event_id, student_id, college_id); when a
note for (event_id, student_id) exists, UPDATE its content in place,
otherwise INSERT a new note row. -/
def postNote (db : DB) (user_college user_id event_id : Nat)
    (content : String) : NoteResult × DB :=
  if !(db.registrations.any
      (fun r => r.event_id == event_id && r.student_id == user_id &&
        r.college_id == user_college)) then
    (NoteResult.notRegistered, db)
  else if db.notes.any
      (fun n => n.event_id == event_id && n.student_id == user_id) then
    (NoteResult.updated,
     { db with notes :=
         db.notes.map (fun n =>
           if n.event_id == event_id && n.student_id == user_id then
             { n with content := content }
           else n) })
  else
    (NoteResult.created,
     { db with notes := db.notes ++ [⟨event_id, user_id, content⟩] })

/-- One row of the event-popularity report. -/
structure PopularityRow where
  id : Nat
  title : String
  registrations : Nat
deriving DecidableEq

/-- The reports route GET /event-popularity (src/routes/report.js, lines 13
to 20): one row per event with e.college_id = caller, counting the LEFT
JOINed registrations with matching event_id and status registered, ordered
by the count descending. -/
def eventPopularity (db : DB) (college_id : Nat) : List PopularityRow :=
  List.insertionSort (fun a b : PopularityRow => b.registrations ≤ a.registrations)
    ((db.events.filter (fun e => e.college_id == college_id)).map
      (fun e =>
        ⟨e.id, e.title,
         (db.registrations.filter
           (fun r => r.event_id == e.id &&
             r.status == RegStatus.registered)).length⟩))

/-- One row of the student-participation and leaderboard reports. -/
structure ParticipationRow where
  id : Nat
  first_name : String
  last_name : String
  events_attended : Nat
deriving DecidableEq

/-- The joined rows of one student under LEFT JOIN attendance ON
s.id = a.student_id AND s.college_id = a.college_id: the matched attendance
rows, or one NULL-extended row when none match. -/
def participationJoinRows (db : DB) (s : Student) : List (Option Attendance) :=
  let matched := db.attendance.filter
    (fun a => a.student_id == s.id && s.college_id == a.college_id)
  if matched.isEmpty then [none] else matched.map some

/-- The optional date conditions of the student-participation WHERE clause;
SQL comparison against the NULL checked_in_at of a NULL-extended row is not
true, so such a row is filtered out whenever a date bound is present. -/
def dateFilter (start_date end_date : Option Nat) (oa : Option Attendance) :
    Bool :=
  (match start_date with
   | none => true
   | some d =>
     match oa with
     | none => false
     | some a => d ≤ a.checked_in_at) &&
  (match end_date with
   | none => true
   | some d =>
     match oa with
     | none => false
     | some a => a.checked_in_at ≤ d)

/-- The reports route GET /student-participation (lines 34 to 56): students
of the caller's college LEFT JOINed with their same-college attendance,
date-bounded in the WHERE clause (which drops the group entirely when no
joined row survives), COUNT(a.id) counting the non-NULL rows, ordered by
the count descending. -/
def studentParticipation (db : DB) (college_id : Nat)
    (start_date end_date : Option Nat) : List ParticipationRow :=
  List.insertionSort
    (fun a b : ParticipationRow => b.events_attended ≤ a.events_attended)
    ((db.students.filter (fun s => s.college_id == college_id)).filterMap
      (fun s =>
        let rows := (participationJoinRows db s).filter
          (dateFilter start_date end_date)
        if rows.isEmpty then none
        else
          some ⟨s.id, s.first_name, s.last_name,
                (rows.filterMap id).length⟩))

/-- The reports route GET /leaderboard (lines 67 to 78): students of the
caller's college with their same-college attendance counts, ordered by the
count descending, truncated to the limit. -/
def leaderboard (db : DB) (college_id limit : Nat) : List ParticipationRow :=
  (List.insertionSort
    (fun a b : ParticipationRow => b.events_attended ≤ a.events_attended)
    ((db.students.filter (fun s => s.college_id == college_id)).map
      (fun s =>
        ⟨s.id, s.first_name, s.last_name,
         (db.attendance.filter
           (fun a => a.student_id == s.id &&
             s.college_id == a.college_id)).length⟩))).take limit

/-- Outcome of the auth route POST /login handler: 401 Invalid credentials,
or the issued token payload together with the response user email. -/
inductive LoginResult
  | invalidCredentials
  | loggedIn (payload : TokenUser) (email : String)
deriving DecidableEq

/-- The auth route POST /login handler (src/routes/auth.js, lines 80 to
110): the admins table is queried first by email; only when it returns no
row is the students table queried.  The password check (bcrypt.compare) is
an external collaborator, passed in as the verify function; the issued
token role is admin for an admins row and student for a students row. -/
def login (db : DB) (verify : String → String → Bool)
    (email password : String) : LoginResult :=
  match db.admins.find? (fun a => a.email == email) with
  | some a =>
    if verify password a.password_hash then
      LoginResult.loggedIn ⟨a.id, a.college_id, "admin"⟩ a.email
    else LoginResult.invalidCredentials
  | none =>
    match db.students.find? (fun s => s.email == email) with
    | some s =>
      if verify password s.password_hash then
        LoginResult.loggedIn ⟨s.id, s.college_id, "student"⟩ s.email
      else LoginResult.invalidCredentials
    | none => LoginResult.invalidCredentials

/-- A concrete database state used to evaluate the handlers on explicit
inputs: two colleges, an event with free capacity, an event with capacity
0, a cross-college event, one existing registration, one attendance fact,
one feedback row and one note for (event 1, student 1), an inactive
student, and an email present in both the admins and students tables. -/
def dbW : DB :=
  { events :=
      [⟨1, 1, "Tech Talk", some 2, some "sec1"⟩,
       ⟨2, 1, "Zero Cap", some 0, some "sec2"⟩,
       ⟨3, 2, "Other College", some 5, some "sec3"⟩],
    registrations := [⟨1, 1, 1, RegStatus.registered, none⟩],
    attendance := [⟨1, 1, 1, 10⟩],
    students :=
      [⟨1, 1, "ada@uni.test", "hashA", "Ada", "Lovelace", true⟩,
       ⟨2, 1, "bob@uni.test", "hashB", "Bob", "Byte", false⟩,
       ⟨3, 2, "eve@other.test", "hashC", "Eve", "Crypt", true⟩,
       ⟨4, 1, "dual@uni.test", "hashS", "Dee", "Dual", true⟩],
    admins := [⟨9, 1, "dual@uni.test", "hashAdm", true⟩],
    feedback := [⟨1, 1, 1, 4, none, none, false⟩],
    notes := [⟨1, 1, "old note"⟩] }

/-- A password verifier standing in for bcrypt.compare on the concrete
inputs: accepts exactly the stored admin hash. -/
def verifyW : String → String → Bool :=
  fun _password hash => hash == "hashAdm"

theorem sqlMax_append_one (l : List Int) (x : Int) :
    sqlMax (l ++ [x]) =
      match sqlMax l with
      | none => some x
      | some m => some (max m x) := by
  induction l with
  | nil => rfl
  | cons y ys ih =>
    cases hys : sqlMax ys with
    | none => simp only [List.cons_append, sqlMax, List.append_eq, ih, hys]
    | some m =>
      simp only [List.cons_append, sqlMax, List.append_eq, ih, hys]
      rw [max_assoc]

theorem sqlMax_append_next (l : List Int) (m : Int)
    (h : (sqlMax l).getD 0 = m) :
    sqlMax (l ++ [m + 1]) = some (m + 1) := by
  rw [sqlMax_append_one]
  cases hl : sqlMax l with
  | none => rfl
  | some k =>
    rw [hl] at h
    simp only [Option.getD_some] at h
    subst h
    simp [max_eq_right (le_of_lt (lt_add_one k))]

theorem postRegistration_found (db : DB) (cid sid eid : Nat) (ev : Event)
    (hev : findEvent db eid cid = some ev) :
    postRegistration db cid sid eid =
      if hasRegistration db eid sid then (RegistrationResult.failed, db)
      else
        (RegistrationResult.ok (registrationDecision db ev eid).1
           (registrationDecision db ev eid).2,
         { db with registrations := db.registrations ++
             [⟨cid, eid, sid, (registrationDecision db ev eid).1,
               (registrationDecision db ev eid).2⟩] }) := by
  unfold postRegistration
  rw [hev]

/-- C1.  For every student admission where the event exists in the caller's
tenant and the insert is not blocked by an existing (event, student) row:
when the registered count is strictly below the stored capacity C the
handler creates a registration with status registered and position null and
answers with that status and position; otherwise it creates a waitlisted
registration at position MAX(waitlist_position)+1, which is 1 when no
waitlisted row exists, and answers with that status and position. -/
theorem claim_C1 (db : DB) (cid sid eid : Nat) (ev : Event) (C : Int)
    (hev : findEvent db eid cid = some ev)
    (hcap : ev.max_participants = some C)
    (hnew : hasRegistration db eid sid = false) :
    ((registeredCount db eid : Int) < C →
       postRegistration db cid sid eid
         = (RegistrationResult.ok RegStatus.registered none,
            { db with registrations := db.registrations ++
                [⟨cid, eid, sid, RegStatus.registered, none⟩] }))
    ∧ ((registeredCount db eid : Int) ≥ C →
       postRegistration db cid sid eid
         = (RegistrationResult.ok RegStatus.waitlisted
              (some ((maxWaitlistPos db eid).getD 0 + 1)),
            { db with registrations := db.registrations ++
                [⟨cid, eid, sid, RegStatus.waitlisted,
                  some ((maxWaitlistPos db eid).getD 0 + 1)⟩] }))
    ∧ (maxWaitlistPos db eid = none →
        some ((maxWaitlistPos db eid).getD 0 + 1) = some 1) := by
  rw [postRegistration_found db cid sid eid ev hev, hnew]
  unfold registrationDecision
  rw [hcap]
  simp only [Option.getD_some, Bool.false_eq_true, if_false]
  refine ⟨?_, ?_, ?_⟩
  · intro h
    rw [if_neg (not_le.mpr h)]
  · intro h
    rw [if_pos h]
  · intro h
    rw [h]
    rfl

theorem claim_C1_witness :
    postRegistration dbW 1 2 1
      = (RegistrationResult.ok RegStatus.registered none,
         { dbW with registrations := dbW.registrations ++
             [⟨1, 1, 2, RegStatus.registered, none⟩] }) :=
  (claim_C1 dbW 1 2 1 ⟨1, 1, "Tech Talk", some 2, some "sec1"⟩ 2
    (by decide) (by decide) (by decide)).1 (by decide)

/-- C3 (amended).  A second admission request for a pair that already holds
a non-cancelled registration fails and creates no second row, but the
failure is the generic 500 Failed to register response of the catch block
around the unique-key violation, not a Conflict. -/
theorem claim_C3 (db : DB) (cid sid eid : Nat) (ev : Event)
    (r : Registration) (hev : findEvent db eid cid = some ev)
    (hr : r ∈ db.registrations) (hre : r.event_id = eid)
    (hrs : r.student_id = sid) (_hnc : r.status ≠ RegStatus.cancelled) :
    postRegistration db cid sid eid = (RegistrationResult.failed, db)
    ∧ registrationHttpStatus (postRegistration db cid sid eid).1 = 500 := by
  have hdup : hasRegistration db eid sid = true := by
    unfold hasRegistration
    rw [List.any_eq_true]
    exact ⟨r, hr, by simp [hre, hrs]⟩
  rw [postRegistration_found db cid sid eid ev hev, hdup]
  simp [registrationHttpStatus]

theorem claim_C3_witness :
    postRegistration dbW 1 1 1 = (RegistrationResult.failed, dbW) :=
  (claim_C3 dbW 1 1 1 ⟨1, 1, "Tech Talk", some 2, some "sec1"⟩
    ⟨1, 1, 1, RegStatus.registered, none⟩ (by decide) (by decide) (by decide)
    (by decide) (by decide)).1

/-- C3 counterexample to the claim as stated: on a concrete state where
student 1 already holds a registered registration for event 1, the second
request answers with HTTP 500 (the Internal shape), not with the Conflict
shape (400 in this source, conceptually 409). -/
theorem claim_C3_counterexample :
    (postRegistration dbW 1 1 1).1 = RegistrationResult.failed
    ∧ registrationHttpStatus (postRegistration dbW 1 1 1).1 = 500
    ∧ registrationHttpStatus (postRegistration dbW 1 1 1).1 ≠ 400
    ∧ registrationHttpStatus (postRegistration dbW 1 1 1).1 ≠ 409 := by
  decide

/-- C10.  For an event whose stored max_participants is NULL or 0, the JS
comparison count >= capacity coerces NULL to 0 and is true even for a count
of zero, so no admission ever yields status registered, and every admission
whose insert succeeds yields status waitlisted with a position. -/
theorem claim_C10 (db : DB) (cid sid eid : Nat) (ev : Event)
    (hev : findEvent db eid cid = some ev)
    (hcap : ev.max_participants = none ∨ ev.max_participants = some 0) :
    (∀ pos, (postRegistration db cid sid eid).1
        ≠ RegistrationResult.ok RegStatus.registered pos)
    ∧ (hasRegistration db eid sid = false →
        (postRegistration db cid sid eid).1
          = RegistrationResult.ok RegStatus.waitlisted
              (some ((maxWaitlistPos db eid).getD 0 + 1))) := by
  have hz : ev.max_participants.getD 0 = 0 := by
    rcases hcap with h | h <;> rw [h] <;> rfl
  have hge : (registeredCount db eid : Int) ≥ ev.max_participants.getD 0 := by
    rw [hz]
    exact Int.natCast_nonneg _
  have hdec : registrationDecision db ev eid
      = (RegStatus.waitlisted, some ((maxWaitlistPos db eid).getD 0 + 1)) := by
    unfold registrationDecision
    rw [if_pos hge]
  rw [postRegistration_found db cid sid eid ev hev]
  constructor
  · intro pos
    cases hreg : hasRegistration db eid sid <;> simp [hreg, hdec]
  · intro h
    rw [h]
    simp [hdec]

theorem findEvent_set_registrations (db : DB) (l : List Registration)
    (eid cid : Nat) :
    findEvent { db with registrations := l } eid cid = findEvent db eid cid :=
  rfl

theorem registeredCount_append_waitlisted (db : DB) (cid sid eid : Nat)
    (p : Option Int) :
    registeredCount
      { db with registrations := db.registrations ++
          [⟨cid, eid, sid, RegStatus.waitlisted, p⟩] } eid
      = registeredCount db eid := by
  unfold registeredCount
  rw [List.filter_append]
  simp

theorem waitlistRows_append_waitlisted (db : DB) (cid sid eid : Nat)
    (p : Option Int) :
    waitlistRows
      { db with registrations := db.registrations ++
          [⟨cid, eid, sid, RegStatus.waitlisted, p⟩] } eid
      = waitlistRows db eid ++ [⟨cid, eid, sid, RegStatus.waitlisted, p⟩] := by
  unfold waitlistRows
  rw [List.filter_append]
  simp

theorem expectedWaitlistRows_positions (cid eid : Nat) (ss : List Nat) :
    ∀ start : Int,
      (expectedWaitlistRows cid eid start ss).map (fun r => r.waitlist_position)
        = (List.range ss.length).map
            (fun i : Nat => some (start + (i : Int) + 1)) := by
  induction ss with
  | nil => intro start; rfl
  | cons s ss ih =>
    intro start
    simp only [expectedWaitlistRows, List.map_cons, List.length_cons]
    rw [List.range_succ_eq_map, List.map_cons, List.map_map]
    congr 1
    · simp
    · rw [ih (start + 1)]
      apply List.map_congr_left
      intro i _
      simp only [Function.comp_apply, Nat.cast_succ]
      congr 2
      ring

theorem seq_waitlist_spec (cid eid : Nat) (ss : List Nat) :
    ∀ (db : DB) (ev : Event),
      findEvent db eid cid = some ev →
      (registeredCount db eid : Int) ≥ ev.max_participants.getD 0 →
      (∀ s ∈ ss, hasRegistration db eid s = false) →
      ss.Nodup →
      waitlistRows (postRegistrationSeq cid eid db ss) eid
        = waitlistRows db eid ++
            expectedWaitlistRows cid eid ((maxWaitlistPos db eid).getD 0) ss := by
  induction ss with
  | nil =>
    intro db ev hev hfull hreg hnodup
    simp [postRegistrationSeq, expectedWaitlistRows]
  | cons s ss ih =>
    intro db ev hev hfull hreg hnodup
    have hs : hasRegistration db eid s = false := hreg s (by simp)
    have hstep : postRegistration db cid s eid
        = (RegistrationResult.ok RegStatus.waitlisted
             (some ((maxWaitlistPos db eid).getD 0 + 1)),
           { db with registrations := db.registrations ++
               [⟨cid, eid, s, RegStatus.waitlisted,
                 some ((maxWaitlistPos db eid).getD 0 + 1)⟩] }) := by
      rw [postRegistration_found db cid s eid ev hev, hs]
      have hdec : registrationDecision db ev eid
          = (RegStatus.waitlisted,
             some ((maxWaitlistPos db eid).getD 0 + 1)) := by
        unfold registrationDecision
        rw [if_pos hfull]
      simp [hdec]
    have hseq : postRegistrationSeq cid eid db (s :: ss)
        = postRegistrationSeq cid eid (postRegistration db cid s eid).2 ss := rfl
    set db2 : DB :=
      { db with registrations := db.registrations ++
          [⟨cid, eid, s, RegStatus.waitlisted,
            some ((maxWaitlistPos db eid).getD 0 + 1)⟩] } with hdb2
    have hsnd : (postRegistration db cid s eid).2 = db2 := by rw [hstep]
    have hev2 : findEvent db2 eid cid = some ev := hev
    have hcount2 : registeredCount db2 eid = registeredCount db eid :=
      registeredCount_append_waitlisted db cid s eid _
    have hfull2 : (registeredCount db2 eid : Int) ≥ ev.max_participants.getD 0 := by
      rw [hcount2]
      exact hfull
    have hwrows2 : waitlistRows db2 eid
        = waitlistRows db eid ++
            [⟨cid, eid, s, RegStatus.waitlisted,
              some ((maxWaitlistPos db eid).getD 0 + 1)⟩] :=
      waitlistRows_append_waitlisted db cid s eid _
    have hmax2 : maxWaitlistPos db2 eid
        = some ((maxWaitlistPos db eid).getD 0 + 1) := by
      unfold maxWaitlistPos waitlistPositions
      rw [hwrows2, List.filterMap_append]
      exact sqlMax_append_next _ _ rfl
    have hreg2 : ∀ t ∈ ss, hasRegistration db2 eid t = false := by
      intro t ht
      have hnes : s ≠ t := by
        intro hcontra
        rw [hcontra] at hnodup
        exact (List.nodup_cons.mp hnodup).1 ht
      have hbase : hasRegistration db eid t = false := hreg t (by simp [ht])
      unfold hasRegistration at hbase ⊢
      rw [List.any_append, hbase]
      simp [hnes]
    have hnodup2 : ss.Nodup := (List.nodup_cons.mp hnodup).2
    rw [hseq, hsnd, ih db2 ev hev2 hfull2 hreg2 hnodup2, hwrows2, hmax2]
    simp only [Option.getD_some, List.append_assoc, List.singleton_append]
    rfl

/-- C2.  Starting from a state with no waitlisted rows for the event and
with the registered count at or above capacity, N sequential admissions by
N distinct not-yet-registered students append exactly the waitlisted rows
for those students in arrival order with positions 1, 2, ..., N: the
waitlist_position values are exactly 1..N, gapless and duplicate-free. -/
theorem claim_C2 (db : DB) (cid eid : Nat) (ev : Event) (ss : List Nat)
    (hev : findEvent db eid cid = some ev)
    (hfull : (registeredCount db eid : Int) ≥ ev.max_participants.getD 0)
    (hempty : waitlistRows db eid = [])
    (hreg : ∀ s ∈ ss, hasRegistration db eid s = false)
    (hnodup : ss.Nodup) :
    waitlistRows (postRegistrationSeq cid eid db ss) eid
      = expectedWaitlistRows cid eid 0 ss
    ∧ (waitlistRows (postRegistrationSeq cid eid db ss) eid).map
        (fun r => r.waitlist_position)
      = (List.range ss.length).map (fun i : Nat => some ((i : Int) + 1)) := by
  have hmax0 : (maxWaitlistPos db eid).getD 0 = 0 := by
    unfold maxWaitlistPos waitlistPositions
    rw [hempty]
    rfl
  have h := seq_waitlist_spec cid eid ss db ev hev hfull hreg hnodup
  rw [hempty, hmax0] at h
  simp only [List.nil_append] at h
  refine ⟨h, ?_⟩
  rw [h, expectedWaitlistRows_positions]
  apply List.map_congr_left
  intro i _
  simp

theorem claim_C2_witness :
    waitlistRows (postRegistrationSeq 1 2 dbW [5, 6]) 2
      = expectedWaitlistRows 1 2 0 [5, 6] :=
  (claim_C2 dbW 1 2 ⟨2, 1, "Zero Cap", some 0, some "sec2"⟩ [5, 6]
    (by decide) (by decide) (by decide) (by decide) (by decide)).1

/-- C4.  The QR check-in passes its verification only when an events row
matches all three payload fields at once; whenever no row matches all
three — whichever of event_id, secret or college_id is off — the handler
answers with the one constant failure response 400 Invalid QR code. -/
theorem claim_C4 (db : DB) (uc uid : Nat) (qr : QRPayload) (now : Nat) :
    ((qrCheckin db uc uid qr now).1 = CheckinResult.checkedIn →
       ∃ e, e ∈ db.events ∧ e.id = qr.event_id
         ∧ e.qr_secret = some qr.secret ∧ e.college_id = qr.college_id)
    ∧ ((¬ ∃ e, e ∈ db.events ∧ e.id = qr.event_id
          ∧ e.qr_secret = some qr.secret ∧ e.college_id = qr.college_id) →
       (qrCheckin db uc uid qr now).1 = CheckinResult.invalidQR
       ∧ checkinResponse (qrCheckin db uc uid qr now).1
           = (400, "Invalid QR code")) := by
  unfold qrCheckin
  cases hfind : qrMatchingEvent db qr with
  | none =>
    refine ⟨?_, ?_⟩
    · intro h
      simp at h
    · intro _
      exact ⟨rfl, rfl⟩
  | some e =>
    have hp := List.find?_some hfind
    have hmem := List.mem_of_find?_eq_some hfind
    simp only [Bool.and_eq_true, beq_iff_eq] at hp
    refine ⟨?_, ?_⟩
    · intro _
      exact ⟨e, hmem, hp.1.1, hp.1.2, hp.2⟩
    · intro hno
      exact absurd ⟨e, hmem, hp.1.1, hp.1.2, hp.2⟩ hno

theorem claim_C4_witness :
    (qrCheckin dbW 1 1 ⟨1, "wrong", 1⟩ 99).1 = CheckinResult.invalidQR ∧
    checkinResponse (qrCheckin dbW 1 1 ⟨1, "wrong", 1⟩ 99).1
      = (400, "Invalid QR code") :=
  (claim_C4 dbW 1 1 ⟨1, "wrong", 1⟩ 99).2 (by decide)

/-- C5.  A QR check-in bearing a valid proof for an event the student
already has an attendance row for answers 400 Already checked in and leaves
the database, in particular the attendance table, unchanged. -/
theorem claim_C5 (db : DB) (uc uid now : Nat) (qr : QRPayload) (e : Event)
    (he : e ∈ db.events) (hid : e.id = qr.event_id)
    (hsec : e.qr_secret = some qr.secret)
    (hcol : e.college_id = qr.college_id) (a : Attendance)
    (ha : a ∈ db.attendance) (hae : a.event_id = qr.event_id)
    (hstu : a.student_id = uid) :
    qrCheckin db uc uid qr now = (CheckinResult.alreadyCheckedIn, db)
    ∧ checkinResponse (qrCheckin db uc uid qr now).1
        = (400, "Already checked in") := by
  have hfind : (qrMatchingEvent db qr).isSome := by
    unfold qrMatchingEvent
    rw [List.find?_isSome]
    exact ⟨e, he, by simp [hid, hsec, hcol]⟩
  obtain ⟨e0, hfind0⟩ := Option.isSome_iff_exists.mp hfind
  have hany : db.attendance.any
      (fun x => x.event_id == qr.event_id && x.student_id == uid) = true := by
    rw [List.any_eq_true]
    exact ⟨a, ha, by simp [hae, hstu]⟩
  unfold qrCheckin
  rw [hfind0]
  simp [hany, checkinResponse]

theorem claim_C5_witness :
    qrCheckin dbW 1 1 ⟨1, "sec1", 1⟩ 99 = (CheckinResult.alreadyCheckedIn, dbW) :=
  (claim_C5 dbW 1 1 99 ⟨1, "sec1", 1⟩ ⟨1, 1, "Tech Talk", some 2, some "sec1"⟩
    (by decide) (by decide) (by decide) (by decide) ⟨1, 1, 1, 10⟩
    (by decide) (by decide) (by decide)).1

theorem requireSameCollege_adminlike (db : DB) (i c : Nat) (role : String)
    (h : role = "admin" ∨ role = "super_admin") :
    requireSameCollege db ⟨i, c, role⟩
      = match db.admins.find? (fun a => a.id == i) with
        | none => GuardResult.forbidden "Admin account not found or inactive"
        | some a =>
          if a.is_active then GuardResult.proceed ⟨i, a.college_id, role⟩
          else GuardResult.forbidden "Admin account not found or inactive" := by
  unfold requireSameCollege
  rw [if_pos h]

theorem requireSameCollege_student (db : DB) (i c : Nat) :
    requireSameCollege db ⟨i, c, "student"⟩
      = match db.students.find? (fun s => s.id == i) with
        | none => GuardResult.forbidden "Student account not found or inactive"
        | some s =>
          if s.is_active then GuardResult.proceed ⟨i, s.college_id, "student"⟩
          else GuardResult.forbidden "Student account not found or inactive" := by
  unfold requireSameCollege
  rw [if_neg (show ¬("student" = "admin" ∨ "student" = "super_admin") by decide),
      if_pos rfl]

theorem accountRecord_adminlike (db : DB) (i c : Nat) (role : String)
    (h : role = "admin" ∨ role = "super_admin") :
    accountRecord db ⟨i, c, role⟩
      = (db.admins.find? (fun a => a.id == i)).map
          (fun a => (a.is_active, a.college_id)) := by
  unfold accountRecord
  rw [if_pos h]

theorem accountRecord_student (db : DB) (i c : Nat) :
    accountRecord db ⟨i, c, "student"⟩
      = (db.students.find? (fun s => s.id == i)).map
          (fun s => (s.is_active, s.college_id)) := by
  unfold accountRecord
  rw [if_neg (show ¬("student" = "admin" ∨ "student" = "super_admin") by decide),
      if_pos rfl]

theorem requireSameCollege_eq_record (db : DB) (i c : Nat) (role : String)
    (hrole : role = "student" ∨ role = "admin" ∨ role = "super_admin") :
    requireSameCollege db ⟨i, c, role⟩
      = match accountRecord db ⟨i, c, role⟩ with
        | none => GuardResult.forbidden
            (if role = "student" then "Student account not found or inactive"
             else "Admin account not found or inactive")
        | some (act, col) =>
          if act then GuardResult.proceed ⟨i, col, role⟩
          else GuardResult.forbidden
            (if role = "student" then "Student account not found or inactive"
             else "Admin account not found or inactive") := by
  rcases hrole with h | h | h
  all_goals subst h
  · rw [requireSameCollege_student, accountRecord_student]
    cases hf : db.students.find? (fun s => s.id == i) with
    | none => simp
    | some s => simp
  · rw [requireSameCollege_adminlike db i c "admin" (Or.inl rfl),
        accountRecord_adminlike db i c "admin" (Or.inl rfl)]
    cases hf : db.admins.find? (fun a => a.id == i) with
    | none => simp
    | some a => simp
  · rw [requireSameCollege_adminlike db i c "super_admin" (Or.inr rfl),
        accountRecord_adminlike db i c "super_admin" (Or.inr rfl)]
    cases hf : db.admins.find? (fun a => a.id == i) with
    | none => simp
    | some a => simp

/-- C6.  For the roles the system issues, the requireSameCollege guard
rejects with a 403 Forbidden response whenever the live account row is
absent or inactive — it never consults any expiry — and when it lets the
request proceed, the college_id it attaches is the one of the live account
row, so the outcome is the same whatever college_id the credential payload
carried. -/
theorem claim_C6 (db : DB) (u : TokenUser)
    (hrole : u.role = "student" ∨ u.role = "admin" ∨ u.role = "super_admin") :
    (accountRecord db u = none →
       ∃ m, requireSameCollege db u = GuardResult.forbidden m)
    ∧ (∀ c, accountRecord db u = some (false, c) →
       ∃ m, requireSameCollege db u = GuardResult.forbidden m)
    ∧ (∀ c, accountRecord db u = some (true, c) →
       requireSameCollege db u = GuardResult.proceed ⟨u.id, c, u.role⟩)
    ∧ (∀ x y, requireSameCollege db { u with college_id := x }
        = requireSameCollege db { u with college_id := y }) := by
  obtain ⟨i, c, role⟩ := u
  dsimp only
  have hbr := requireSameCollege_eq_record db i c role hrole
  refine ⟨?_, ?_, ?_, ?_⟩
  · intro hnone
    rw [hbr, hnone]
    exact ⟨_, rfl⟩
  · intro c0 hsome
    rw [hbr, hsome]
    exact ⟨_, rfl⟩
  · intro c0 hsome
    rw [hbr, hsome]
    rfl
  · intro x y
    have hx := requireSameCollege_eq_record db i x role hrole
    have hy := requireSameCollege_eq_record db i y role hrole
    have hacc : accountRecord db ⟨i, x, role⟩ = accountRecord db ⟨i, y, role⟩ := rfl
    rw [hx, hy, hacc]

theorem claim_C6_witness :
    requireSameCollege dbW ⟨1, 77, "student"⟩
      = GuardResult.proceed ⟨1, 1, "student"⟩ :=
  (claim_C6 dbW ⟨1, 77, "student"⟩ (Or.inl rfl)).2.2.1 1 (by decide)

/-- C7 (amended).  Notes creation has upsert semantics: for a registered
student, a missing note row is created and an existing one is updated in
place with no new row added.  Feedback creation does not upsert: for an
attending student, a missing feedback row is created, but an existing one
makes the submission fail with 400 Feedback already submitted and the state
unchanged (updates go only through the separate PUT endpoint). -/
theorem claim_C7 (db : DB) (uc uid eid : Nat) (content : String)
    (rating : Int) (comments suggestions : Option String) (anon : Bool) :
    (db.registrations.any
        (fun r => r.event_id == eid && r.student_id == uid &&
          r.college_id == uc) = true →
      (db.notes.any (fun n => n.event_id == eid && n.student_id == uid)
          = false →
        postNote db uc uid eid content
          = (NoteResult.created,
             { db with notes := db.notes ++ [⟨eid, uid, content⟩] }))
      ∧ (db.notes.any (fun n => n.event_id == eid && n.student_id == uid)
          = true →
        postNote db uc uid eid content
          = (NoteResult.updated,
             { db with notes := db.notes.map (fun n =>
                 if n.event_id == eid && n.student_id == uid then
                   { n with content := content }
                 else n) })
        ∧ (postNote db uc uid eid content).2.notes.length
            = db.notes.length))
    ∧ (db.attendance.any
        (fun a => a.event_id == eid && a.student_id == uid &&
          a.college_id == uc) = true →
      (db.feedback.any (fun f => f.event_id == eid && f.student_id == uid)
          = true →
        postFeedback db uc uid eid rating comments suggestions anon
          = (FeedbackResult.alreadySubmitted, db))
      ∧ (db.feedback.any (fun f => f.event_id == eid && f.student_id == uid)
          = false →
        postFeedback db uc uid eid rating comments suggestions anon
          = (FeedbackResult.created,
             { db with feedback := db.feedback ++
                 [⟨uc, eid, uid, rating, comments, suggestions, anon⟩] }))) := by
  constructor
  · intro hregany
    constructor
    · intro hnone
      unfold postNote
      rw [hregany, hnone]
      rfl
    · intro hsome
      unfold postNote
      rw [hregany, hsome]
      exact ⟨rfl, by simp⟩
  · intro hatt
    constructor
    · intro hsome
      unfold postFeedback
      rw [hatt, hsome]
      rfl
    · intro hnone
      unfold postFeedback
      rw [hatt, hnone]
      rfl

theorem claim_C7_witness :
    postNote dbW 1 1 1 "revised"
      = (NoteResult.updated, { dbW with notes := [⟨1, 1, "revised"⟩] })
    ∧ postFeedback dbW 1 1 1 5 none none false
      = (FeedbackResult.alreadySubmitted, dbW) := by
  have h := claim_C7 dbW 1 1 1 "revised" 5 none none false
  refine ⟨?_, (h.2 (by decide)).1 (by decide)⟩
  have hn := ((h.1 (by decide)).2 (by decide)).1
  rw [hn]
  decide

/-- C7 counterexample to the claim as stated: on a concrete state where
student 1 attended event 1 and already has a feedback row for it, a second
feedback submission does not update in place — it fails with the
alreadySubmitted outcome and leaves the database unchanged. -/
theorem claim_C7_counterexample :
    (postFeedback dbW 1 1 1 5 none none false).1
      = FeedbackResult.alreadySubmitted
    ∧ (postFeedback dbW 1 1 1 5 none none false).2 = dbW := by
  decide

/-- C8.  Every row of the event-popularity report carries the id of an
events row of the caller's derived college, and every row of the
student-participation and leaderboard reports carries the id of a students
row of the caller's derived college, for every database state and every
filter combination; none of the three queries takes a tenant id other than
the caller's. -/
theorem claim_C8 (db : DB) (cid : Nat) (sd ed : Option Nat) (lim : Nat) :
    (∀ row ∈ eventPopularity db cid,
       row.id ∈ (db.events.filter
         (fun e => e.college_id == cid)).map (fun e => e.id))
    ∧ (∀ row ∈ studentParticipation db cid sd ed,
       row.id ∈ (db.students.filter
         (fun s => s.college_id == cid)).map (fun s => s.id))
    ∧ (∀ row ∈ leaderboard db cid lim,
       row.id ∈ (db.students.filter
         (fun s => s.college_id == cid)).map (fun s => s.id)) := by
  refine ⟨?_, ?_, ?_⟩
  · intro row hrow
    unfold eventPopularity at hrow
    rw [(List.perm_insertionSort _ _).mem_iff] at hrow
    obtain ⟨e, he, rfl⟩ := List.mem_map.mp hrow
    exact List.mem_map.mpr ⟨e, he, rfl⟩
  · intro row hrow
    unfold studentParticipation at hrow
    rw [(List.perm_insertionSort _ _).mem_iff] at hrow
    obtain ⟨s, hs, hsome⟩ := List.mem_filterMap.mp hrow
    by_cases hemp : ((participationJoinRows db s).filter
        (dateFilter sd ed)).isEmpty
    · rw [if_pos hemp] at hsome
      cases hsome
    · rw [if_neg hemp] at hsome
      obtain rfl := Option.some_inj.mp hsome
      exact List.mem_map.mpr ⟨s, hs, rfl⟩
  · intro row hrow
    unfold leaderboard at hrow
    have hrow2 := List.take_subset _ _ hrow
    rw [(List.perm_insertionSort _ _).mem_iff] at hrow2
    obtain ⟨s, hs, rfl⟩ := List.mem_map.mp hrow2
    exact List.mem_map.mpr ⟨s, hs, rfl⟩

theorem claim_C8_witness :
    (⟨1, "Tech Talk", 1⟩ : PopularityRow).id
      ∈ (dbW.events.filter (fun e => e.college_id == 1)).map (fun e => e.id) :=
  (claim_C8 dbW 1 none none 10).1 ⟨1, "Tech Talk", 1⟩ (by decide)

/-- C9.  When an admins row matches the login email, the password is
checked against that row's hash and a success issues the admin role token
from that row; the students table plays no part in the outcome, whatever
it contains. -/
theorem claim_C9 (db : DB) (verify : String → String → Bool)
    (email password : String) (a : Admin)
    (hfind : db.admins.find? (fun x => x.email == email) = some a)
    (_hboth : ∃ s, s ∈ db.students ∧ s.email = email) :
    login db verify email password
      = (if verify password a.password_hash then
           LoginResult.loggedIn ⟨a.id, a.college_id, "admin"⟩ a.email
         else LoginResult.invalidCredentials)
    ∧ (∀ ss, login { db with students := ss } verify email password
        = login db verify email password) := by
  constructor
  · unfold login
    rw [hfind]
  · intro ss
    unfold login
    rw [show ({ db with students := ss } : DB).admins = db.admins from rfl,
        hfind]

theorem claim_C9_witness :
    login dbW verifyW "dual@uni.test" "pw"
      = LoginResult.loggedIn ⟨9, 1, "admin"⟩ "dual@uni.test" := by
  have h := (claim_C9 dbW verifyW "dual@uni.test" "pw" ⟨9, 1, "dual@uni.test", "hashAdm", true⟩
    (by decide) ⟨⟨4, 1, "dual@uni.test", "hashS", "Dee", "Dual", true⟩, by decide, rfl⟩).1
  rw [h]
  decide

theorem claim_C10_witness :
    (postRegistration dbW 1 2 2).1
      = RegistrationResult.ok RegStatus.waitlisted
          (some ((maxWaitlistPos dbW 2).getD 0 + 1)) :=
  (claim_C10 dbW 1 2 2 ⟨2, 1, "Zero Cap", some 0, some "sec2"⟩
    (by decide) (Or.inr (by decide))).2 (by decide)
